import Mathlib

/-!
Shallow embedding of the nyumba_hub backend (Express + Supabase REST API).

Source layout:
* `backend/supabase.js` — shared client and auth helpers (`getUserFromAuth`,
  `requireAuth`, `optionalAuth`).
* `backend/routes/favorites.js` — favorites routes.
* two revisions of the listings router live in the repository; we call them
  variant A (the revision whose `GET /` forces `is_available` only for
  anonymous callers and whose `POST /search` never does) and variant B
  (the revision that chains `.eq('is_available', true)` unconditionally
  in `GET /` and `POST /search`).

Database rows, request bodies and query strings are modelled explicitly;
JavaScript string coercions (`parseInt`, truthiness, `=== 'true'`) are
embedded as total Lean functions.
-/

namespace NyumbaHub

/-! ## JavaScript primitives -/

/-- Digit-fold for a decimal digit prefix. -/
def digitsVal (cs : List Char) : Nat :=
  cs.foldl (fun a c => a * 10 + (c.toNat - 48)) 0

/-- JavaScript `parseInt(s)` (radix 10): skip leading whitespace, optional
sign, then the longest decimal-digit prefix; `none` models `NaN`.
(A `0x` prefix, which JS would read as hexadecimal, yields the digit prefix
`0` here; no claim involves hexadecimal numeric strings.) -/
def parseIntJS (s : String) : Option Int :=
  let cs := s.data.dropWhile (fun c => c.isWhitespace)
  let signed : Bool × List Char :=
    match cs with
    | '-' :: r => (true, r)
    | '+' :: r => (false, r)
    | r => (false, r)
  let ds := signed.2.takeWhile (fun c => c.isDigit)
  if ds.isEmpty then none
  else some (if signed.1 then -(digitsVal ds : Int) else (digitsVal ds : Int))

/-- The coercion `parseInt(v) || 0` where `v` is an optional request field
(`parseInt(undefined)` is `NaN`, and `NaN || 0` is `0`). -/
def parseIntOrZero (v : Option String) : Int :=
  match v with
  | none => 0
  | some s =>
    match parseIntJS s with
    | none => 0
    | some n => n

/-- JavaScript truthiness of an optional string field
(`undefined` and `''` are falsy). -/
def truthy : Option String → Bool
  | none => false
  | some s => s ≠ ""

/-- The test `v === 'true'` on an optional string field. -/
def isTrueLit (v : Option String) : Bool :=
  v == some "true"

/-- JavaScript `s.startsWith(p)`, embedded as a character-list prefix
test. -/
def startsWithJS (s p : String) : Bool :=
  p.data.isPrefixOf s.data

/-- Bool-valued infix test on lists (executable form of `<:+:`). -/
def infixOf (a b : List Char) : Bool :=
  match b with
  | [] => a.isEmpty
  | _ :: t => a.isPrefixOf b || infixOf a t

/-- Case-insensitive substring match: the store's `ilike('%needle%')`. -/
def containsCI (hay needle : String) : Bool :=
  infixOf needle.toLower.data hay.toLower.data

/-- Splitting a character list at every occurrence of `sep`, keeping empty
segments (`acc` is the current segment, reversed) — structural recursion
so that concrete key computations reduce. -/
def splitOnCharAux (sep : Char) : List Char → List Char → List (List Char)
  | [], acc => [acc.reverse]
  | c :: rest, acc =>
    if c = sep then acc.reverse :: splitOnCharAux sep rest []
    else splitOnCharAux sep rest (c :: acc)

/-- JavaScript `url.split('/')`: every `'/'` is a separator and empty
segments are kept. -/
def splitSlash (s : String) : List String :=
  (splitOnCharAux '/' s.data []).map (fun cs => String.mk cs)

/-- Last segment of `url.split('/')` after dropping empty segments —
variant A's `url.split('/').filter(Boolean).pop()` (`none` = JS
`undefined` from popping an empty array). -/
def lastSegA (s : String) : Option String :=
  ((splitSlash s).filter (fun t => t ≠ "")).getLast?

/-- Last segment of `url.split('/')` — variant B's `url.split('/').pop()`
(`splitSlash` never returns `[]`, so this is always `some`). -/
def lastSegB (s : String) : Option String :=
  (splitSlash s).getLast?

/-! ## Data model -/

/-- A row of the `listings` table (timestamps as abstract `Nat` ticks). -/
structure Listing where
  id : Nat
  title : String
  description : String
  price : Int
  property_type : String
  bedrooms : Int
  bathrooms : Int
  location : String
  county : String
  estate : String
  landlord_name : String
  amenities : List String
  furnishing_status : String
  parking : Bool
  garden : Bool
  balcony : Bool
  own_compound : Bool
  electricity : Bool
  internet : Bool
  is_available : Bool
  landlord_id : Nat
  image_url : Option String
  images : List String
  created_at : Nat
  updated_at : Nat
deriving Repr, DecidableEq

/-- A row of the `favorites` table. -/
structure Favorite where
  id : Nat
  user_id : Nat
  listing_id : Nat
  created_at : Nat
deriving Repr, DecidableEq

/-- The relational store visible to these routes. -/
structure Db where
  listings : List Listing
  favorites : List Favorite
deriving Repr, DecidableEq

/-! ## `backend/supabase.js` -/

/-- Outcome of `supabase.auth.getUser(token)`: a resolved (possibly null)
user id, or any verification error (invalid token, expired token, network
failure) — all errors are indistinguishable to the caller. -/
inductive VerifyOutcome where
  | ok (u : Option Nat)
  | err
deriving Repr, DecidableEq

/-- Function `getUserFromAuth(authHeader)`: `null` unless the header is present and
starts with `'Bearer '`; otherwise the token (the header minus the 7-char
prefix) is verified, and a thrown/returned error is caught and mapped to
`null`. -/
def getUserFromAuth (authHeader : Option String) (verify : String → VerifyOutcome) :
    Option Nat :=
  match authHeader with
  | none => none
  | some h =>
    if !(startsWithJS h "Bearer ") then none
    else
      match verify (h.drop 7) with
      | .err => none
      | .ok u => u

/-! ## `backend/routes/favorites.js` -/

/-- Response of `POST /favorites`. -/
inductive AddFavoriteResult where
  /-- HTTP 400 `INVALID_INPUT`: no `listing_id` in the body. -/
  | invalidInput
  /-- HTTP 404 `NOT_FOUND`: the listings lookup matched no row. -/
  | notFound
  /-- HTTP 400 `UNAVAILABLE`: the listing has `is_available = false`. -/
  | unavailable
  /-- HTTP 400 `DUPLICATE`: unique-constraint violation `23505` on insert. -/
  | duplicate
  /-- HTTP 201 with the inserted favorite row. -/
  | created (f : Favorite)
deriving Repr, DecidableEq

/-- Route `POST /favorites` with body `{ listing_id }` for user `userId`.
The listing lookup is `.single()` on `id = listing_id` (ids are the
primary key, so `find?` is the matched row); the duplicate check is the
store's unique constraint on `(user_id, listing_id)`, surfaced as error
code 23505. `newId`/`newTs` stand for the store-assigned id and timestamp.
Returns the response and the resulting store. -/
def addFavorite (userId : Nat) (listing_id : Option Nat) (newId newTs : Nat)
    (db : Db) : AddFavoriteResult × Db :=
  match listing_id with
  | none => (.invalidInput, db)
  | some lid =>
    match db.listings.find? (fun l => l.id == lid) with
    | none => (.notFound, db)
    | some listing =>
      if !listing.is_available then (.unavailable, db)
      else if db.favorites.any (fun f => f.user_id == userId && f.listing_id == lid) then
        (.duplicate, db)
      else
        let fav : Favorite := ⟨newId, userId, lid, newTs⟩
        (.created fav, ⟨db.listings, db.favorites ++ [fav]⟩)

/-- Response of `DELETE /favorites/:listingId` — the route always replies
200 `{ message: 'Removed from favorites' }` when the store call succeeds,
whether or not a row matched. -/
inductive RemoveFavoriteResult where
  | removed
deriving Repr, DecidableEq

/-- Route `DELETE /favorites/:listingId` for user `userId`: delete every favorite
with `user_id = userId` and `listing_id = listingId`. -/
def removeFavorite (userId listingId : Nat) (db : Db) : RemoveFavoriteResult × Db :=
  (.removed,
    ⟨db.listings,
     db.favorites.filter (fun f => !(f.user_id == userId && f.listing_id == listingId))⟩)

/-! ## Listings query builder

`GET /listings` reads string-valued query parameters; `POST /listings/search`
reads a JSON body whose filter values may be strings, numbers, booleans or
string arrays (`JVal`). Each filter contributes one store predicate; the
composed query is their conjunction, so the order in which `.eq`/`.ilike`
calls are chained does not change the matched row set. -/

/-- A JSON filter value as it arrives in the `POST /search` body. -/
inductive JVal where
  | str (s : String)
  | num (n : Int)
  | bool (b : Bool)
  | arr (l : List String)
deriving Repr, DecidableEq

/-- JavaScript string coercion of a filter value (`String(v)`), as used by
template interpolation and `parseInt`. -/
def JVal.toJsString : JVal → String
  | .str s => s
  | .num n => toString n
  | .bool b => if b then "true" else "false"
  | .arr l => String.intercalate "," l

/-- JavaScript `parseInt(v)` on a JSON value. -/
def JVal.parseIntJV : JVal → Option Int
  | .num n => some n
  | v => parseIntJS v.toJsString

/-- The test `value === 'true' || value === true` on a JSON value. -/
def JVal.isTrueJS : JVal → Bool
  | .str s => s == "true"
  | .bool b => b
  | _ => false

/-- The `forEach` guard `value !== undefined && value !== null && value !== ''`
on an optional JSON field. -/
def JVal.present : Option JVal → Bool
  | none => false
  | some v => v != .str ""

/-- Store predicate `gte(col, v)`: `none` models `NaN`, which never matches
(the `price=gte.NaN` request matches no integer). -/
def intGeOpt (col : Int) (v : Option Int) : Bool :=
  match v with
  | some n => decide (n ≤ col)
  | none => false

/-- Store predicate `lte(col, v)` with `NaN` matching nothing. -/
def intLeOpt (col : Int) (v : Option Int) : Bool :=
  match v with
  | some n => decide (col ≤ n)
  | none => false

/-- Store predicate `eq(col, v)` on an integer column with `NaN` matching nothing. -/
def intEqOpt (col : Int) (v : Option Int) : Bool :=
  match v with
  | some n => col == n
  | none => false

/-- Query-string parameters of `GET /listings` (all strings; absent fields
are `none`, and destructuring gives `limit = 20`, `offset = 0`,
`sort = 'updated_at'`, `order = 'desc'` when absent). -/
structure ListQueryParams where
  limit : Option String := none
  offset : Option String := none
  sort : Option String := none
  order : Option String := none
  location : Option String := none
  property_type : Option String := none
  min_price : Option String := none
  max_price : Option String := none
  bedrooms : Option String := none
  bathrooms : Option String := none
  county : Option String := none
  estate : Option String := none
  landlord_name : Option String := none
deriving Repr, DecidableEq

/-- The nine `if (param) query = query...` filters of `GET /listings`
(identical filter block in variants A and B). -/
def matchesListFilters (p : ListQueryParams) (l : Listing) : Bool :=
  (if truthy p.location then containsCI l.location ((p.location).getD "") else true) &&
  (if truthy p.property_type then l.property_type == (p.property_type).getD "" else true) &&
  (if truthy p.min_price then intGeOpt l.price (parseIntJS ((p.min_price).getD "")) else true) &&
  (if truthy p.max_price then intLeOpt l.price (parseIntJS ((p.max_price).getD "")) else true) &&
  (if truthy p.bedrooms then intEqOpt l.bedrooms (parseIntJS ((p.bedrooms).getD "")) else true) &&
  (if truthy p.bathrooms then intEqOpt l.bathrooms (parseIntJS ((p.bathrooms).getD "")) else true) &&
  (if truthy p.county then containsCI l.county ((p.county).getD "") else true) &&
  (if truthy p.estate then containsCI l.estate ((p.estate).getD "") else true) &&
  (if truthy p.landlord_name then containsCI l.landlord_name ((p.landlord_name).getD "") else true)

/-- Sort key for `.order(sort, ...)` on the numeric columns the routes sort
by (default `updated_at`); an unrecognized column name degrades to a
constant key, leaving the (stable) order unchanged. -/
def sortKeyVal (key : String) (l : Listing) : Int :=
  if key == "updated_at" then (l.updated_at : Int)
  else if key == "created_at" then (l.created_at : Int)
  else if key == "price" then l.price
  else if key == "bedrooms" then l.bedrooms
  else if key == "bathrooms" then l.bathrooms
  else if key == "id" then (l.id : Int)
  else 0

/-- Store ordering `.order(key, { ascending })` as a stable merge sort. -/
def orderBy (key : String) (ascending : Bool) (rows : List Listing) : List Listing :=
  rows.mergeSort (fun a b =>
    if ascending then decide (sortKeyVal key a ≤ sortKeyVal key b)
    else decide (sortKeyVal key b ≤ sortKeyVal key a))

/-- Store windowing `.range(offset, offset + limit - 1)` — the inclusive row window.
A `NaN` bound makes the store reject the request (no rows); modelled as an
empty window via `getD 0` on the failed parse. -/
def rangeSlice (offv limitv : Option String) (offDflt limDflt : Int) (rows : List Listing) :
    List Listing :=
  let off : Int := match offv with | none => offDflt | some s => (parseIntJS s).getD 0
  let lim : Int := match limitv with | none => limDflt | some s => (parseIntJS s).getD 0
  (rows.drop off.toNat).take lim.toNat

/-- Variant A `GET /listings` (route `router.get('/')`): user filters, then
`eq('is_available', true)` appended only when `req.user` is absent, then
order and range. `user` is the identity resolved by `optionalAuth`. -/
def listRowsA (p : ListQueryParams) (user : Option Nat) (db : Db) : List Listing :=
  let filtered := db.listings.filter (fun l =>
    matchesListFilters p l && (if user.isNone then l.is_available else true))
  rangeSlice p.offset p.limit 0 20
    (orderBy ((p.sort).getD "updated_at") (((p.order).getD "desc") == "asc") filtered)

/-- Variant B `GET /listings`: `eq('is_available', true)` is chained
unconditionally before the user filters. -/
def listRowsB (p : ListQueryParams) (user : Option Nat) (db : Db) : List Listing :=
  let filtered := db.listings.filter (fun l =>
    l.is_available && matchesListFilters p l)
  rangeSlice p.offset p.limit 0 20
    (orderBy ((p.sort).getD "updated_at") (((p.order).getD "desc") == "asc") filtered)

/-- Body filters of `POST /listings/search` (each field optional; the
`forEach` skips `undefined`, `null` and `''`). -/
structure SearchFilters where
  property_type : Option JVal := none
  min_price : Option JVal := none
  max_price : Option JVal := none
  bedrooms : Option JVal := none
  bathrooms : Option JVal := none
  location : Option JVal := none
  county : Option JVal := none
  estate : Option JVal := none
  landlord_name : Option JVal := none
  amenities : Option JVal := none
  furnishing_status : Option JVal := none
  parking : Option JVal := none
  garden : Option JVal := none
  balcony : Option JVal := none
  own_compound : Option JVal := none
  electricity : Option JVal := none
  internet : Option JVal := none
deriving Repr, DecidableEq

/-- One `case` of the search filter `switch` for a string-equality column. -/
def eqFilter (col : String) (v : Option JVal) : Bool :=
  match v with
  | some (.arr _) => true  -- unreachable for the fields routed here
  | some w => col == w.toJsString
  | none => true

/-- Switch case `property_type`: `in(...)` for an array value, `eq` otherwise. -/
def propertyTypeFilter (col : String) (v : JVal) : Bool :=
  match v with
  | .arr vs => vs.contains col
  | w => col == w.toJsString

/-- Switch case `amenities`: `contains(...)` (column array ⊇ requested array),
applied only for a non-empty array value. -/
def amenitiesFilter (col : List String) (v : JVal) : Bool :=
  match v with
  | .arr vs => if vs.isEmpty then true else vs.all (fun a => col.contains a)
  | _ => true

/-- The search filter `switch` shared by both variants; `hasLandlordName`
is true for variant A, whose `switch` also routes `landlord_name` to
`ilike` (variant B's has no such case). -/
def matchesSearchFilters (hasLandlordName : Bool) (f : SearchFilters) (l : Listing) : Bool :=
  (if JVal.present f.property_type then
    propertyTypeFilter l.property_type ((f.property_type).getD (.str "")) else true) &&
  (if JVal.present f.min_price then
    intGeOpt l.price (((f.min_price).getD (.str "")).parseIntJV) else true) &&
  (if JVal.present f.max_price then
    intLeOpt l.price (((f.max_price).getD (.str "")).parseIntJV) else true) &&
  (if JVal.present f.bedrooms then
    intEqOpt l.bedrooms (((f.bedrooms).getD (.str "")).parseIntJV) else true) &&
  (if JVal.present f.bathrooms then
    intEqOpt l.bathrooms (((f.bathrooms).getD (.str "")).parseIntJV) else true) &&
  (if JVal.present f.location then
    containsCI l.location (((f.location).getD (.str "")).toJsString) else true) &&
  (if JVal.present f.county then
    containsCI l.county (((f.county).getD (.str "")).toJsString) else true) &&
  (if JVal.present f.estate then
    containsCI l.estate (((f.estate).getD (.str "")).toJsString) else true) &&
  (if hasLandlordName && JVal.present f.landlord_name then
    containsCI l.landlord_name (((f.landlord_name).getD (.str "")).toJsString) else true) &&
  (if JVal.present f.amenities then
    amenitiesFilter l.amenities ((f.amenities).getD (.str "")) else true) &&
  (if JVal.present f.furnishing_status then
    eqFilter l.furnishing_status f.furnishing_status else true) &&
  (if JVal.present f.parking then
    l.parking == ((f.parking).getD (.str "")).isTrueJS else true) &&
  (if JVal.present f.garden then
    l.garden == ((f.garden).getD (.str "")).isTrueJS else true) &&
  (if JVal.present f.balcony then
    l.balcony == ((f.balcony).getD (.str "")).isTrueJS else true) &&
  (if JVal.present f.own_compound then
    l.own_compound == ((f.own_compound).getD (.str "")).isTrueJS else true) &&
  (if JVal.present f.electricity then
    l.electricity == ((f.electricity).getD (.str "")).isTrueJS else true) &&
  (if JVal.present f.internet then
    l.internet == ((f.internet).getD (.str "")).isTrueJS else true)

/-- Free-text block `if (searchQuery) query.or(title OR description OR
location.ilike OR landlord_name.ilike)` — variant A's free-text match
(variant B's omits `landlord_name`; `withLandlordName` selects). -/
def matchesTextQuery (withLandlordName : Bool) (q : Option String) (l : Listing) : Bool :=
  match q with
  | none => true
  | some s =>
    if s = "" then true
    else
      containsCI l.title s || containsCI l.description s || containsCI l.location s ||
      (withLandlordName && containsCI l.landlord_name s)

/-- Body of `POST /listings/search`. -/
structure SearchBody where
  query : Option String := none
  filters : SearchFilters := {}
  limit : Option String := none
  offset : Option String := none
deriving Repr, DecidableEq

/-- Variant A `POST /listings/search`: free-text OR-match and the filter
`switch`, ordered by `updated_at` descending, ranged. No `is_available`
predicate is ever chained, for any requester. -/
def searchRowsA (b : SearchBody) (user : Option Nat) (db : Db) : List Listing :=
  let filtered := db.listings.filter (fun l =>
    matchesTextQuery true b.query l && matchesSearchFilters true b.filters l)
  rangeSlice b.offset b.limit 0 20 (orderBy "updated_at" false filtered)

/-- Variant B `POST /listings/search`: `eq('is_available', true)` chained
unconditionally before the text and filter predicates; its text match and
`switch` omit `landlord_name`. -/
def searchRowsB (b : SearchBody) (user : Option Nat) (db : Db) : List Listing :=
  let filtered := db.listings.filter (fun l =>
    l.is_available && matchesTextQuery false b.query l &&
      matchesSearchFilters false b.filters l)
  rangeSlice b.offset b.limit 0 20 (orderBy "updated_at" false filtered)

/-! ## `GET /listings/:id` -/

/-- Result of a `.single()` select: error `PGRST116` when zero (or more
than one) rows match — the repository's own favorites `check` route
handles exactly this code for the zero-row case. -/
def singleRow (rows : List Listing) : Except Unit Listing :=
  match rows with
  | [r] => .ok r
  | _ => .error ()

/-- HTTP outcome of `GET /listings/:id`. -/
inductive GetListingResult where
  /-- HTTP 200 with the row. -/
  | ok (l : Listing)
  /-- HTTP 404 `NOT_FOUND`. -/
  | notFound
  /-- HTTP 403 (`Listing not available`). -/
  | forbidden
  /-- HTTP 500 (`Failed to fetch listing`): a thrown store error. -/
  | serverError
deriving Repr, DecidableEq

/-- Variant A `GET /listings/:id`: `if (error) throw error` runs before
`if (!listing) return 404`, and `.single()` reports a zero-row match as an
error, so an absent id reaches the catch block (500); the 404 branch is
unreachable. An available listing, or the owner, gets the row; anyone else
gets 403. -/
def getListingA (id : Nat) (user : Option Nat) (db : Db) : GetListingResult :=
  match singleRow (db.listings.filter (fun l => l.id == id)) with
  | .error _ => .serverError
  | .ok listing =>
    if !(listing.is_available ||
        (match user with | some u => u == listing.landlord_id | none => false)) then
      .forbidden
    else .ok listing

/-- Variant B `GET /listings/:id`: `if (error || !listing) return 404`, so
an absent id yields 404; the availability/ownership gate is as in A. -/
def getListingB (id : Nat) (user : Option Nat) (db : Db) : GetListingResult :=
  match singleRow (db.listings.filter (fun l => l.id == id)) with
  | .error _ => .notFound
  | .ok listing =>
    if !(listing.is_available ||
        (match user with | some u => u == listing.landlord_id | none => false)) then
      .forbidden
    else .ok listing

/-! ## `POST /listings` and `PUT /listings/:id` -/

/-- Multipart text fields of a create/update request body. Absent fields
are `none` (JS `undefined`). `amenities` and `existing_images` arrive as
JSON array strings and are modelled parsed; `JSON.parse(x || '[]')` makes
an absent (or empty, falsy) `amenities` the empty list, and a falsy
`existing_images` falls back to the stored row, so both are `none` when
absent or `''`. -/
structure ReqBody where
  title : Option String := none
  description : Option String := none
  price : Option String := none
  property_type : Option String := none
  bedrooms : Option String := none
  bathrooms : Option String := none
  location : Option String := none
  county : Option String := none
  estate : Option String := none
  landlord_name : Option String := none
  amenities : Option (List String) := none
  furnishing_status : Option String := none
  parking : Option String := none
  garden : Option String := none
  balcony : Option String := none
  own_compound : Option String := none
  electricity : Option String := none
  internet : Option String := none
  is_available : Option String := none
  existing_images : Option (List String) := none
deriving Repr, DecidableEq

/-- The `listingData` object handed to `.insert(...)`. String fields keep
their `Option`: an `undefined` value is dropped by JSON serialization and
never reaches the store. -/
structure ListingData where
  title : Option String
  description : Option String
  price : Int
  property_type : Option String
  bedrooms : Int
  bathrooms : Int
  location : Option String
  county : Option String
  estate : Option String
  landlord_name : String
  amenities : List String
  furnishing_status : Option String
  parking : Bool
  garden : Bool
  balcony : Bool
  own_compound : Bool
  electricity : Bool
  internet : Bool
  is_available : Bool
  landlord_id : Nat
  image_url : Option String
  images : List String
  created_at : Nat
  updated_at : Nat
deriving Repr, DecidableEq

/-- The `listingData` built by `POST /listings` (same text in both
variants): `price/bedrooms/bathrooms` via `parseInt(x) || 0`, booleans via
`x === 'true'`, `landlord_name` via `req.body.landlord_name ||
profile.full_name`, first uploaded URL as primary, rest as `images`. -/
def mkListingData (body : ReqBody) (profileFullName : String) (userId : Nat)
    (uploadedUrls : List String) (now : Nat) : ListingData where
  title := body.title
  description := body.description
  price := parseIntOrZero body.price
  property_type := body.property_type
  bedrooms := parseIntOrZero body.bedrooms
  bathrooms := parseIntOrZero body.bathrooms
  location := body.location
  county := body.county
  estate := body.estate
  landlord_name :=
    match body.landlord_name with
    | some s => if s = "" then profileFullName else s
    | none => profileFullName
  amenities := (body.amenities).getD []
  furnishing_status := body.furnishing_status
  parking := isTrueLit body.parking
  garden := isTrueLit body.garden
  balcony := isTrueLit body.balcony
  own_compound := isTrueLit body.own_compound
  electricity := isTrueLit body.electricity
  internet := isTrueLit body.internet
  is_available := isTrueLit body.is_available
  landlord_id := userId
  image_url := match uploadedUrls with | [] => none | u :: _ => some u
  images := match uploadedUrls with | [] => [] | _ :: rest => rest
  created_at := now
  updated_at := now

/-- The `updateData` object handed to `.update(...)`. As with inserts, a
string field that is `undefined` in the request body stays `undefined`
here and is omitted from the serialized PATCH body, so the store leaves
that column unchanged; the parsed numeric, boolean, amenity and image
fields are always present. -/
structure UpdateData where
  title : Option String
  description : Option String
  price : Int
  property_type : Option String
  bedrooms : Int
  bathrooms : Int
  location : Option String
  county : Option String
  estate : Option String
  landlord_name : Option String
  amenities : List String
  furnishing_status : Option String
  parking : Bool
  garden : Bool
  balcony : Bool
  own_compound : Bool
  electricity : Bool
  internet : Bool
  is_available : Bool
  image_url : Option String
  images : List String
  updated_at : Nat
deriving Repr, DecidableEq

/-- The `updateData` built by `PUT /listings/:id` (identical text in both
variants). -/
def mkUpdateData (body : ReqBody) (image_url : Option String) (images : List String)
    (now : Nat) : UpdateData where
  title := body.title
  description := body.description
  price := parseIntOrZero body.price
  property_type := body.property_type
  bedrooms := parseIntOrZero body.bedrooms
  bathrooms := parseIntOrZero body.bathrooms
  location := body.location
  county := body.county
  estate := body.estate
  landlord_name := body.landlord_name
  amenities := (body.amenities).getD []
  furnishing_status := body.furnishing_status
  parking := isTrueLit body.parking
  garden := isTrueLit body.garden
  balcony := isTrueLit body.balcony
  own_compound := isTrueLit body.own_compound
  electricity := isTrueLit body.electricity
  internet := isTrueLit body.internet
  is_available := isTrueLit body.is_available
  image_url := image_url
  images := images
  updated_at := now

/-- Effect of a PATCH carrying `updateData` on a stored row: every
serialized field overwrites the column; an `undefined` string field is
absent from the PATCH and the column keeps its old value. `id`,
`landlord_id` and `created_at` are never in `updateData`. -/
def applyUpdateData (u : UpdateData) (l : Listing) : Listing where
  id := l.id
  title := (u.title).getD l.title
  description := (u.description).getD l.description
  price := u.price
  property_type := (u.property_type).getD l.property_type
  bedrooms := u.bedrooms
  bathrooms := u.bathrooms
  location := (u.location).getD l.location
  county := (u.county).getD l.county
  estate := (u.estate).getD l.estate
  landlord_name := (u.landlord_name).getD l.landlord_name
  amenities := u.amenities
  furnishing_status := (u.furnishing_status).getD l.furnishing_status
  parking := u.parking
  garden := u.garden
  balcony := u.balcony
  own_compound := u.own_compound
  electricity := u.electricity
  internet := u.internet
  is_available := u.is_available
  landlord_id := l.landlord_id
  image_url := u.image_url
  images := u.images
  created_at := l.created_at
  updated_at := u.updated_at

/-! ## Image reconciliation on update -/

/-- Result of the image block of `PUT /listings/:id`. Blob keys are
`Option String` because `pop()` on an empty split is JS `undefined`. -/
structure ImageReconcile where
  image_url : Option String
  images : List String
  imagesToDelete : List (Option String)
deriving Repr, DecidableEq

/-- The image block of `PUT /listings/:id`, parametrized by the variant's
key extraction (`lastSegA` / `lastSegB`):
`images` starts as the parsed `existing_images` (stored `images` when that
field is falsy); `oldImagePaths` is keyed from the stored `images` only;
a non-empty upload batch replaces the primary with `uploadedUrls[0]`
(`|| image_url` guards the falsy empty string) and appends
`uploadedUrls.slice(1)`; `imagesToDelete` is every old key absent from the
new sequence's keys. -/
def reconcileImages (lastSeg : String → Option String)
    (existing_images : Option (List String)) (prevImageUrl : Option String)
    (prevImages : List String) (uploadedUrls : List String) : ImageReconcile :=
  let images0 := match existing_images with | some l => l | none => prevImages
  let oldImagePaths := prevImages.map lastSeg
  let primAndImgs : Option String × List String :=
    match uploadedUrls with
    | [] => (prevImageUrl, images0)
    | u :: rest => ((if u = "" then prevImageUrl else some u), images0 ++ rest)
  let newImagePaths := primAndImgs.2.map lastSeg
  let imagesToDelete := oldImagePaths.filter (fun p => !(newImagePaths.contains p))
  ⟨primAndImgs.1, primAndImgs.2, imagesToDelete⟩

/-- Variant A image reconciliation (`split('/').filter(Boolean).pop()`). -/
def reconcileImagesA (existing_images : Option (List String))
    (prevImageUrl : Option String) (prevImages : List String)
    (uploadedUrls : List String) : ImageReconcile :=
  reconcileImages lastSegA existing_images prevImageUrl prevImages uploadedUrls

/-- Variant B image reconciliation (`split('/').pop()`). -/
def reconcileImagesB (existing_images : Option (List String))
    (prevImageUrl : Option String) (prevImages : List String)
    (uploadedUrls : List String) : ImageReconcile :=
  reconcileImages lastSegB existing_images prevImageUrl prevImages uploadedUrls

/-! ## Effect order of `PUT /listings/:id` -/

/-- Externally visible store effects of the update handler, in program
order. -/
inductive Effect where
  | storageUpload (key : String)
  | storageRemove (keys : List (Option String))
  | rowUpdate (id : Nat) (d : UpdateData)
  | rowDelete (id : Nat)
deriving Repr, DecidableEq

/-- The stored columns `PUT`/`DELETE` fetch first
(`select('landlord_id, image_url, images')`). -/
structure PrevListing where
  landlord_id : Nat
  image_url : Option String
  images : List String
deriving Repr, DecidableEq

/-- Store-effect trace of the authorized body of `PUT /listings/:id`:
uploads (inside the `req.files` branch), then
`storage.remove(imagesToDelete)` when that list is non-empty, then —
last — the row `.update(...)`. `publicUrlOf` is
`getPublicUrl(fileName).data.publicUrl`. -/
def updateEffects (lastSeg : String → Option String) (id : Nat) (prev : PrevListing)
    (body : ReqBody) (uploadedFileNames : List String) (publicUrlOf : String → String)
    (now : Nat) : List Effect :=
  let uploadedUrls := uploadedFileNames.map publicUrlOf
  let r := reconcileImages lastSeg body.existing_images prev.image_url prev.images uploadedUrls
  let d := mkUpdateData body r.image_url r.images now
  (uploadedFileNames.map Effect.storageUpload) ++
    (if r.imagesToDelete.isEmpty then [] else [Effect.storageRemove r.imagesToDelete]) ++
    [Effect.rowUpdate id d]

/-- Store-effect trace of the authorized body of `DELETE /listings/:id`:
`storage.remove` of the primary and secondary keys, then the row delete. -/
def deleteEffects (lastSeg : String → Option String) (id : Nat) (prev : PrevListing) :
    List Effect :=
  let imagePaths :=
    (match prev.image_url with | some u => [lastSeg u] | none => []) ++
      prev.images.map lastSeg
  (if imagePaths.isEmpty then [] else [Effect.storageRemove imagePaths]) ++
    [Effect.rowDelete id]

/-- The object store and the one listing row under update, for executing a
trace. -/
structure BlobState where
  blobs : List String
  rowImageUrl : Option String
  rowImages : List String
  rowDeleted : Bool
deriving Repr, DecidableEq

/-- Execute one effect. `rowWriteSucceeds` injects the failure mode of the
final row write (the store call is awaited and may fail after the
`storage.remove` already succeeded). -/
def applyEffect (rowWriteSucceeds : Bool) (s : BlobState) : Effect → BlobState
  | .storageUpload k => ⟨s.blobs ++ [k], s.rowImageUrl, s.rowImages, s.rowDeleted⟩
  | .storageRemove ks =>
    ⟨s.blobs.filter (fun k => !(ks.contains (some k))), s.rowImageUrl, s.rowImages,
      s.rowDeleted⟩
  | .rowUpdate _ d =>
    if rowWriteSucceeds then ⟨s.blobs, d.image_url, d.images, s.rowDeleted⟩ else s
  | .rowDelete _ =>
    if rowWriteSucceeds then ⟨s.blobs, s.rowImageUrl, s.rowImages, true⟩ else s

/-- Execute a trace left to right. -/
def runEffects (rowWriteSucceeds : Bool) (effects : List Effect) (s : BlobState) :
    BlobState :=
  effects.foldl (applyEffect rowWriteSucceeds) s

/-- The surviving row references a blob key no longer in the store. -/
def referencesDeadBlob (lastSeg : String → Option String) (s : BlobState) : Bool :=
  !s.rowDeleted &&
    s.rowImages.any (fun u =>
      match lastSeg u with
      | some k => !(s.blobs.contains k)
      | none => false)

/-! ## Shared lemmas -/

/-- Membership survives the order/range pipeline backwards: a returned row
was in the filtered set. -/
theorem mem_of_mem_pipeline {l : Listing} {key : String} {asc : Bool}
    {offv limv : Option String} {d1 d2 : Int} {rows : List Listing}
    (h : l ∈ rangeSlice offv limv d1 d2 (orderBy key asc rows)) : l ∈ rows := by
  unfold rangeSlice at h
  have h1 : l ∈ orderBy key asc rows :=
    List.mem_of_mem_drop (List.mem_of_mem_take h)
  unfold orderBy at h1
  rw [List.mem_mergeSort] at h1
  exact h1

/-- Count of a fixed element in a duplicate-free list it belongs to. -/
theorem count_eq_one_of_nodup_mem {x : String} {l : List String}
    (hd : l.Nodup) (hm : x ∈ l) : l.count x = 1 :=
  List.count_eq_one_of_mem hd hm

/-! ## Demo rows used by witnesses and counterexamples -/

/-- A concrete available listing. -/
def demoListing : Listing :=
  ⟨1, "Sunny 2BR", "nice", 50000, "apartment", 2, 1, "Nairobi", "Nairobi", "Westlands",
   "Ann", ["wifi"], "furnished", false, false, false, false, false, false, true, 7,
   some "u/p.png", ["u/a.png"], 3, 4⟩

/-- The same listing with `is_available = false`. -/
def demoUnavailable : Listing :=
  ⟨1, "Sunny 2BR", "nice", 50000, "apartment", 2, 1, "Nairobi", "Nairobi", "Westlands",
   "Ann", ["wifi"], "furnished", false, false, false, false, false, false, false, 7,
   some "u/p.png", ["u/a.png"], 3, 4⟩

/-- C4: for an authenticated requester and a present listing identifier,
`POST /favorites` fails NotFound (404) when no listing row matches, fails
InvalidState (400 `UNAVAILABLE`) when the matched listing has
`is_available = false`, fails Conflict (400 `DUPLICATE`) when a favorite
for the same (user, listing) pair already exists, and inserts a favorite
row exactly when none of these conditions holds; the store is unchanged in
every failure case. -/
theorem addFavorite_errors_and_insert (u lid newId newTs : Nat) (db : Db) :
    (db.listings.find? (fun l => l.id == lid) = none →
      addFavorite u (some lid) newId newTs db = (.notFound, db)) ∧
    (∀ l, db.listings.find? (fun l => l.id == lid) = some l → l.is_available = false →
      addFavorite u (some lid) newId newTs db = (.unavailable, db)) ∧
    (∀ l, db.listings.find? (fun l => l.id == lid) = some l → l.is_available = true →
      db.favorites.any (fun f => f.user_id == u && f.listing_id == lid) = true →
      addFavorite u (some lid) newId newTs db = (.duplicate, db)) ∧
    (∀ l, db.listings.find? (fun l => l.id == lid) = some l → l.is_available = true →
      db.favorites.any (fun f => f.user_id == u && f.listing_id == lid) = false →
      addFavorite u (some lid) newId newTs db =
        (.created ⟨newId, u, lid, newTs⟩,
          ⟨db.listings, db.favorites ++ [⟨newId, u, lid, newTs⟩]⟩)) := by
  refine ⟨?_, ?_, ?_, ?_⟩
  · intro h
    simp [addFavorite, h]
  · intro l hl hav
    simp [addFavorite, hl, hav]
  · intro l hl hav hdup
    simp [addFavorite, hl, hav, hdup]
  · intro l hl hav hdup
    simp [addFavorite, hl, hav, hdup]

/-- Witness for C4: in a store holding only the available `demoListing`
(id 1) and no favorites, user 5 favoriting listing 1 inserts the row. -/
theorem addFavorite_errors_and_insert_witness :
    addFavorite 5 (some 1) 9 0 ⟨[demoListing], []⟩ =
      (.created ⟨9, 5, 1, 0⟩, ⟨[demoListing], [⟨9, 5, 1, 0⟩]⟩) :=
  (addFavorite_errors_and_insert 5 1 9 0 ⟨[demoListing], []⟩).2.2.2 demoListing
    (by decide) (by decide) (by decide)

/-- C8: `DELETE /favorites/:listingId` always succeeds with the same
success response, removing it twice leaves exactly the state reached by
removing it once, and removing a favorite that does not exist returns
success with the store unchanged. -/
theorem removeFavorite_idempotent_spec (u lid : Nat) (db : Db) :
    (removeFavorite u lid db).1 = .removed ∧
    removeFavorite u lid (removeFavorite u lid db).2 = removeFavorite u lid db ∧
    ((∀ f ∈ db.favorites, ¬(f.user_id = u ∧ f.listing_id = lid)) →
      (removeFavorite u lid db).2 = db) := by
  refine ⟨rfl, ?_, ?_⟩
  · unfold removeFavorite
    simp [List.filter_filter]
  · intro h
    unfold removeFavorite
    have hself :
        db.favorites.filter (fun f => !(f.user_id == u && f.listing_id == lid)) =
          db.favorites := by
      apply List.filter_eq_self.mpr
      intro f hf
      have hnot := h f hf
      by_cases h1 : f.user_id = u
      · by_cases h2 : f.listing_id = lid
        · exact absurd ⟨h1, h2⟩ hnot
        · simp [h2]
      · simp [h1]
    rw [hself]

/-- Witness for C8: removing a favorite from a store with no favorites
leaves the store unchanged. -/
theorem removeFavorite_idempotent_spec_witness :
    (removeFavorite 5 1 ⟨[demoListing], []⟩).2 = ⟨[demoListing], []⟩ :=
  (removeFavorite_idempotent_spec 5 1 ⟨[demoListing], []⟩).2.2 (by simp)

/-- C9: `getUserFromAuth` is a total function into an optional identity —
it never escalates an error. A missing header, a header without the
`'Bearer '` prefix, and a verification failure (invalid token, expired
token, network error — all modelled by `VerifyOutcome.err`) each resolve
to `none`; a successful verification resolves to the verified user. -/
theorem getUserFromAuth_total_spec (h : Option String) (verify : String → VerifyOutcome) :
    (h = none → getUserFromAuth h verify = none) ∧
    (∀ s, h = some s → startsWithJS s "Bearer " = false →
      getUserFromAuth h verify = none) ∧
    (∀ s, h = some s → startsWithJS s "Bearer " = true → verify (s.drop 7) = .err →
      getUserFromAuth h verify = none) ∧
    (∀ s u, h = some s → startsWithJS s "Bearer " = true → verify (s.drop 7) = .ok u →
      getUserFromAuth h verify = u) := by
  refine ⟨?_, ?_, ?_, ?_⟩
  · rintro rfl
    rfl
  · rintro s rfl hs
    simp [getUserFromAuth, hs]
  · rintro s rfl hs hv
    simp [getUserFromAuth, hs, hv]
  · rintro s u rfl hs hv
    simp [getUserFromAuth, hs, hv]

/-- Witness for C9: a well-formed bearer header whose token fails
verification resolves to `none` rather than an error. -/
theorem getUserFromAuth_total_spec_witness :
    getUserFromAuth (some "Bearer tok") (fun _ => VerifyOutcome.err) = none :=
  (getUserFromAuth_total_spec (some "Bearer tok") (fun _ => VerifyOutcome.err)).2.2.1
    "Bearer tok" rfl (by decide) rfl

/-- Sorting a one-row result is the identity (merge sort permutes). -/
theorem orderBy_singleton (key : String) (asc : Bool) (x : Listing) :
    orderBy key asc [x] = [x] :=
  List.perm_singleton.mp (List.mergeSort_perm [x] _)

/-- Evaluation: variant A search with an empty body over a store holding
one unavailable listing returns that listing — to any requester. -/
theorem searchRowsA_single_unavailable :
    searchRowsA {} none ⟨[demoUnavailable], []⟩ = [demoUnavailable] := by
  show rangeSlice ({} : SearchBody).offset ({} : SearchBody).limit 0 20
    (orderBy "updated_at" false (([demoUnavailable] : List Listing).filter (fun l =>
      matchesTextQuery true ({} : SearchBody).query l &&
      matchesSearchFilters true ({} : SearchBody).filters l))) = [demoUnavailable]
  have hfil : (([demoUnavailable] : List Listing).filter (fun l =>
      matchesTextQuery true ({} : SearchBody).query l &&
      matchesSearchFilters true ({} : SearchBody).filters l)) = [demoUnavailable] := by
    decide
  rw [hfil, orderBy_singleton]
  rfl

/-- Evaluation: variant A list for an authenticated requester (id 99, not
the owner) over a store holding one unavailable listing returns that
listing — the availability predicate is keyed on `!req.user` only. -/
theorem listRowsA_auth_single_unavailable :
    listRowsA {} (some 99) ⟨[demoUnavailable], []⟩ = [demoUnavailable] := by
  show rangeSlice ({} : ListQueryParams).offset ({} : ListQueryParams).limit 0 20
    (orderBy ((({} : ListQueryParams).sort).getD "updated_at")
      (((({} : ListQueryParams).order).getD "desc") == "asc")
      (([demoUnavailable] : List Listing).filter (fun l =>
        matchesListFilters {} l &&
          (if (some 99 : Option Nat).isNone then l.is_available else true)))) =
    [demoUnavailable]
  have hfil : (([demoUnavailable] : List Listing).filter (fun l =>
      matchesListFilters {} l &&
        (if (some 99 : Option Nat).isNone then l.is_available else true))) =
      [demoUnavailable] := by
    decide
  rw [hfil, orderBy_singleton]
  rfl

/-- C1 (amended): how availability is actually forced. Variant B's list
and search chain `is_available = true` unconditionally, so they never
return an unavailable row to any requester; variant A's list forces it
only when the requester is anonymous; `GET /:id` (both variants) returns
an unavailable row only to its authenticated owner. The final conjunct
records the gap that forces the amendment: variant A's list hands an
unavailable row to an authenticated non-owner (and variant A's search
never forces availability at all — see the counterexample theorem). -/
theorem availability_filtering (p : ListQueryParams) (b : SearchBody) (db : Db)
    (user : Option Nat) (id : Nat) :
    (∀ l, l ∈ listRowsB p user db → l.is_available = true) ∧
    (∀ l, l ∈ searchRowsB b user db → l.is_available = true) ∧
    (∀ l, l ∈ listRowsA p none db → l.is_available = true) ∧
    (∀ lr, getListingA id user db = .ok lr → lr.is_available = false →
      user = some lr.landlord_id) ∧
    (∀ lr, getListingB id user db = .ok lr → lr.is_available = false →
      user = some lr.landlord_id) ∧
    (∃ (db2 : Db) (p2 : ListQueryParams) (u2 : Nat) (l2 : Listing),
      l2 ∈ listRowsA p2 (some u2) db2 ∧ l2.is_available = false ∧
        u2 ≠ l2.landlord_id) := by
  refine ⟨?_, ?_, ?_, ?_, ?_, ?_⟩
  · intro l hl
    unfold listRowsB at hl
    have h2 := mem_of_mem_pipeline hl
    rw [List.mem_filter] at h2
    have h3 := h2.2
    simp only [Bool.and_eq_true] at h3
    exact h3.1
  · intro l hl
    unfold searchRowsB at hl
    have h2 := mem_of_mem_pipeline hl
    rw [List.mem_filter] at h2
    have h3 := h2.2
    simp only [Bool.and_eq_true] at h3
    exact h3.1.1
  · intro l hl
    unfold listRowsA at hl
    have h2 := mem_of_mem_pipeline hl
    rw [List.mem_filter] at h2
    have h3 := h2.2
    simp only [Bool.and_eq_true] at h3
    exact h3.2
  · intro lr h hna
    unfold getListingA at h
    cases user with
    | none =>
      cases hs : singleRow (db.listings.filter (fun l => l.id == id)) with
      | error e =>
        rw [hs] at h
        simp at h
      | ok listing =>
        rw [hs] at h
        dsimp only at h
        split at h
        · simp at h
        · rename_i hcond
          simp only [GetListingResult.ok.injEq] at h
          subst h
          exfalso
          apply hcond
          rw [hna]
          rfl
    | some u =>
      cases hs : singleRow (db.listings.filter (fun l => l.id == id)) with
      | error e =>
        rw [hs] at h
        simp at h
      | ok listing =>
        rw [hs] at h
        dsimp only at h
        split at h
        · simp at h
        · rename_i hcond
          simp only [GetListingResult.ok.injEq] at h
          subst h
          by_cases hq : u = listing.landlord_id
          · rw [hq]
          · exfalso
            apply hcond
            rw [hna]
            simp [hq]
  · intro lr h hna
    unfold getListingB at h
    cases user with
    | none =>
      cases hs : singleRow (db.listings.filter (fun l => l.id == id)) with
      | error e =>
        rw [hs] at h
        simp at h
      | ok listing =>
        rw [hs] at h
        dsimp only at h
        split at h
        · simp at h
        · rename_i hcond
          simp only [GetListingResult.ok.injEq] at h
          subst h
          exfalso
          apply hcond
          rw [hna]
          rfl
    | some u =>
      cases hs : singleRow (db.listings.filter (fun l => l.id == id)) with
      | error e =>
        rw [hs] at h
        simp at h
      | ok listing =>
        rw [hs] at h
        dsimp only at h
        split at h
        · simp at h
        · rename_i hcond
          simp only [GetListingResult.ok.injEq] at h
          subst h
          by_cases hq : u = listing.landlord_id
          · rw [hq]
          · exfalso
            apply hcond
            rw [hna]
            simp [hq]
  · exact ⟨⟨[demoUnavailable], []⟩, {}, 99, demoUnavailable,
      by rw [listRowsA_auth_single_unavailable]; exact List.mem_singleton_self _,
      rfl, by decide⟩

/-- Witness for C1: variant A `GET /:id` gave out the unavailable
`demoUnavailable` row only because requester 7 is its owner. -/
theorem availability_filtering_witness :
    (some 7 : Option Nat) = some demoUnavailable.landlord_id :=
  (availability_filtering {} {} ⟨[demoUnavailable], []⟩ (some 7) 1).2.2.2.1
    demoUnavailable (by decide) (by decide)

/-- Counterexample for C1 as stated: an anonymous `POST /listings/search`
request against variant A returns a listing row whose `is_available` is
false — the availability predicate is never part of that query. -/
theorem searchA_leaks_unavailable_row :
    demoUnavailable ∈ searchRowsA {} none ⟨[demoUnavailable], []⟩ ∧
    demoUnavailable.is_available = false :=
  ⟨by rw [searchRowsA_single_unavailable]; exact List.mem_singleton_self _, rfl⟩

/-- C10: in both variants `oldImagePaths` is keyed from the stored
`images` sequence alone, so the deletion-candidate set is a subset of the
previous secondary keys, and the previous primary `image_url` key is never
scheduled for deletion as long as that key does not also occur among the
previous secondary keys. -/
theorem imagesToDelete_from_secondary_only (ex : Option (List String))
    (prevUrl : Option String) (prevImgs : List String) (uploads : List String) :
    ((reconcileImagesA ex prevUrl prevImgs uploads).imagesToDelete ⊆
      prevImgs.map lastSegA) ∧
    ((reconcileImagesB ex prevUrl prevImgs uploads).imagesToDelete ⊆
      prevImgs.map lastSegB) ∧
    (∀ purl, prevUrl = some purl → lastSegA purl ∉ prevImgs.map lastSegA →
      lastSegA purl ∉ (reconcileImagesA ex prevUrl prevImgs uploads).imagesToDelete) ∧
    (∀ purl, prevUrl = some purl → lastSegB purl ∉ prevImgs.map lastSegB →
      lastSegB purl ∉ (reconcileImagesB ex prevUrl prevImgs uploads).imagesToDelete) := by
  have hA : (reconcileImagesA ex prevUrl prevImgs uploads).imagesToDelete ⊆
      prevImgs.map lastSegA := by
    intro a ha
    exact (List.mem_filter.mp ha).1
  have hB : (reconcileImagesB ex prevUrl prevImgs uploads).imagesToDelete ⊆
      prevImgs.map lastSegB := by
    intro a ha
    exact (List.mem_filter.mp ha).1
  refine ⟨hA, hB, ?_, ?_⟩
  · intro purl _ hnot hmem
    exact hnot (hA hmem)
  · intro purl _ hnot hmem
    exact hnot (hB hmem)

/-- Witness for C10: replacing all images of a listing whose primary key
`p.png` is not among its secondary keys never schedules `p.png`. -/
theorem imagesToDelete_from_secondary_only_witness :
    lastSegA "u/p.png" ∉
      (reconcileImagesA (some []) (some "u/p.png") ["u/a.png"] []).imagesToDelete :=
  (imagesToDelete_from_secondary_only (some []) (some "u/p.png") ["u/a.png"] []).2.2.1
    "u/p.png" rfl (by decide)

/-- Counterexample for C3 as stated: with declared existing-images
`["u/a.png"]` and uploads `["u/n1.png", "u/n2.png"]`, the new secondary
sequence is `["u/a.png", "u/n2.png"]` — not the declared list followed by
all newly uploaded references — because the first upload became the new
primary `image_url` instead of joining the secondary sequence. -/
theorem reconcile_secondary_counterexample :
    (reconcileImagesA (some ["u/a.png"]) (some "u/p.png") ["u/a.png"]
        ["u/n1.png", "u/n2.png"]).images ≠
      ["u/a.png"] ++ ["u/n1.png", "u/n2.png"] ∧
    (reconcileImagesA (some ["u/a.png"]) (some "u/p.png") ["u/a.png"]
        ["u/n1.png", "u/n2.png"]).images = ["u/a.png", "u/n2.png"] ∧
    (reconcileImagesA (some ["u/a.png"]) (some "u/p.png") ["u/a.png"]
        ["u/n1.png", "u/n2.png"]).image_url = some "u/n1.png" := by
  refine ⟨by decide, by decide, by decide⟩

/-- C3 (amended): on update with a caller-declared existing-images list,
for every upload batch the new secondary sequence is the declared list
followed by the uploads after the first (`uploads.tail`, which is empty
for a no-upload update, so the secondary sequence is then exactly the
declared list); the first upload, when one exists, becomes the new
primary, and with no uploads the primary is unchanged. For every upload
batch the scheduled deletions are exactly the previous secondary keys
absent from the new sequence's keys, and a reference retained via the
declared list appears exactly once in the new sequence provided the
declared list is duplicate-free and the reference is not among the
appended uploads. -/
theorem reconcile_update_spec (ex : List String) (prevUrl : Option String)
    (prevImgs : List String) (uploads : List String) :
    ((reconcileImagesA (some ex) prevUrl prevImgs uploads).images =
      ex ++ uploads.tail) ∧
    ((reconcileImagesA (some ex) prevUrl prevImgs []).image_url = prevUrl) ∧
    (∀ u rest, uploads = u :: rest → u ≠ "" →
      (reconcileImagesA (some ex) prevUrl prevImgs uploads).image_url = some u) ∧
    (∀ p, p ∈ prevImgs.map lastSegA → p ∉ (ex ++ uploads.tail).map lastSegA →
      p ∈ (reconcileImagesA (some ex) prevUrl prevImgs uploads).imagesToDelete) ∧
    (∀ p, p ∈ (reconcileImagesA (some ex) prevUrl prevImgs uploads).imagesToDelete →
      p ∈ prevImgs.map lastSegA ∧ p ∉ (ex ++ uploads.tail).map lastSegA) ∧
    (∀ x, x ∈ ex → ex.Nodup → x ∉ uploads.tail →
      ((reconcileImagesA (some ex) prevUrl prevImgs uploads).images).count x = 1) := by
  refine ⟨?_, rfl, ?_, ?_, ?_, ?_⟩
  · cases uploads with
    | nil => simp [reconcileImagesA, reconcileImages]
    | cons u rest => rfl
  · rintro u rest rfl hu
    show (if u = "" then prevUrl else some u) = some u
    exact if_neg hu
  · intro p hp hnp
    cases uploads with
    | nil =>
      apply List.mem_filter.mpr
      refine ⟨hp, ?_⟩
      simp [List.contains]
      simpa using hnp
    | cons u rest =>
      apply List.mem_filter.mpr
      refine ⟨hp, ?_⟩
      simp [List.contains]
      simpa using hnp
  · intro p hp
    cases uploads with
    | nil =>
      have h1 := (List.mem_filter.mp hp).1
      have h2 := (List.mem_filter.mp hp).2
      simp [List.contains] at h2
      refine ⟨h1, ?_⟩
      simpa using h2
    | cons u rest =>
      have h1 := (List.mem_filter.mp hp).1
      have h2 := (List.mem_filter.mp hp).2
      simp [List.contains] at h2
      refine ⟨h1, ?_⟩
      simpa using h2
  · intro x hx hnd hnr
    cases uploads with
    | nil =>
      show (ex.count x) = 1
      exact count_eq_one_of_nodup_mem hnd hx
    | cons u rest =>
      have hnr2 : x ∉ rest := hnr
      show ((ex ++ rest).count x) = 1
      rw [List.count_append, count_eq_one_of_nodup_mem hnd hx,
        List.count_eq_zero.mpr hnr2]

/-- Witness for C3, exercising both upload shapes: a no-upload update that
keeps only `u/a.png` schedules the dropped secondary key `b.png` for
deletion; with uploads `u/n1.png`, `u/n2.png` the same key is scheduled
and the retained reference appears exactly once. -/
theorem reconcile_update_spec_witness :
    some "b.png" ∈ (reconcileImagesA (some ["u/a.png"]) (some "u/p.png")
      ["u/a.png", "u/b.png"] []).imagesToDelete ∧
    some "b.png" ∈ (reconcileImagesA (some ["u/a.png"]) (some "u/p.png")
      ["u/a.png", "u/b.png"] ["u/n1.png", "u/n2.png"]).imagesToDelete ∧
    ((reconcileImagesA (some ["u/a.png"]) (some "u/p.png")
      ["u/a.png", "u/b.png"] ["u/n1.png", "u/n2.png"]).images).count "u/a.png" = 1 :=
  ⟨(reconcile_update_spec ["u/a.png"] (some "u/p.png") ["u/a.png", "u/b.png"]
      []).2.2.2.1 (some "b.png") (by decide) (by decide),
   (reconcile_update_spec ["u/a.png"] (some "u/p.png") ["u/a.png", "u/b.png"]
      ["u/n1.png", "u/n2.png"]).2.2.2.1 (some "b.png") (by decide) (by decide),
   (reconcile_update_spec ["u/a.png"] (some "u/p.png") ["u/a.png", "u/b.png"]
      ["u/n1.png", "u/n2.png"]).2.2.2.2.2 "u/a.png" (by decide) (by decide)
      (by decide)⟩

/-- Leading-minus test on an optional price string: true when the first
character after leading whitespace is a minus sign — exactly the inputs
`parseInt` turns into a negative integer. -/
def hasLeadingMinus : Option String → Bool
  | none => false
  | some s => (s.data.dropWhile (fun c => c.isWhitespace)).head? == some '-'

/-- Trichotomy of `parseInt`: the result is `NaN`, a non-negative integer,
or the input began (after whitespace) with a minus sign. -/
theorem parseIntJS_cases (s : String) :
    parseIntJS s = none ∨ (∃ m : Nat, parseIntJS s = some (m : Int)) ∨
    (s.data.dropWhile (fun c => c.isWhitespace)).head? = some '-' := by
  simp only [parseIntJS]
  cases hcs : s.data.dropWhile (fun c => c.isWhitespace) with
  | nil =>
    simp
  | cons c r =>
    by_cases hm : c = '-'
    · subst hm
      right; right
      simp
    · by_cases hp : c = '+'
      · subst hp
        by_cases he : (r.takeWhile (fun c => c.isDigit)).isEmpty
        · left
          simp [he]
        · right; left
          refine ⟨digitsVal (r.takeWhile (fun c => c.isDigit)), ?_⟩
          simp [he]
      · by_cases he : ((c :: r).takeWhile (fun c => c.isDigit)).isEmpty
        · left
          simp [hm, hp, he]
        · right; left
          refine ⟨digitsVal ((c :: r).takeWhile (fun c => c.isDigit)), ?_⟩
          simp [hm, hp, he]

/-- The stored `parseInt(v) || 0` value is non-negative whenever the field
does not begin with a minus sign. -/
theorem parseIntOrZero_nonneg (v : Option String) (h : hasLeadingMinus v = false) :
    0 ≤ parseIntOrZero v := by
  cases v with
  | none => exact le_refl 0
  | some s =>
    rcases parseIntJS_cases s with h1 | ⟨m, h1⟩ | h1
    · simp [parseIntOrZero, h1]
    · simp [parseIntOrZero, h1]
    · have h2 : hasLeadingMinus (some s) = true := by
        simp [hasLeadingMinus, h1]
      rw [h] at h2
      simp at h2

/-- Counterexample for C6 as stated: the request field `price = "-5"`
persists the negative integer −5 in both create and update — the
`parseInt(x) || 0` coercion guards only `NaN`, not sign. -/
theorem listing_price_negative_counterexample :
    (mkListingData { price := some "-5" } "Ann" 7 [] 0).price = -5 ∧
    (mkListingData { price := some "-5" } "Ann" 7 [] 0).price < 0 ∧
    (mkUpdateData { price := some "-5" } (some "u/p.png") [] 0).price = -5 := by
  refine ⟨by decide, by decide, by decide⟩

/-- C6 (amended): every persisted price is the integer
`parseInt(body.price) || 0` — in particular an absent or non-numeric price
persists as 0, and the price is non-negative for every request whose price
field does not begin with a minus sign; a minus-signed numeric string
persists as a negative integer (see the counterexample). -/
theorem listing_price_parse_spec (body : ReqBody) (pf : String) (uid : Nat)
    (urls : List String) (iu : Option String) (imgs : List String) (now : Nat) :
    (mkListingData body pf uid urls now).price = parseIntOrZero body.price ∧
    (mkUpdateData body iu imgs now).price = parseIntOrZero body.price ∧
    (hasLeadingMinus body.price = false →
      0 ≤ (mkListingData body pf uid urls now).price ∧
      0 ≤ (mkUpdateData body iu imgs now).price) := by
  refine ⟨rfl, rfl, ?_⟩
  intro h
  exact ⟨parseIntOrZero_nonneg body.price h, parseIntOrZero_nonneg body.price h⟩

/-- Witness for C6: the price string `"30000"` has no leading minus and
persists as the non-negative integer 30000. -/
theorem listing_price_parse_spec_witness :
    hasLeadingMinus (some "30000") = false ∧
    0 ≤ (mkListingData { price := some "30000" } "Ann" 7 [] 0).price :=
  ⟨by decide,
   ((listing_price_parse_spec { price := some "30000" } "Ann" 7 [] none [] 0).2.2
     (by decide)).1⟩

/-- Counterexample for C7 as stated: an update request without a `title`
field leaves the stored title `"Sunny 2BR"` unchanged — the field is
`undefined` in `updateData`, is dropped from the serialized PATCH, and is
not written as any zero-value. -/
theorem update_absent_title_counterexample :
    (applyUpdateData (mkUpdateData {} (some "u/p.png") ["u/a.png"] 9)
        demoListing).title = demoListing.title ∧
    demoListing.title ≠ "" := by
  refine ⟨by decide, by decide⟩

/-- C7 (amended): the update is a full replace for the numeric fields,
the seven boolean flags, `amenities`, `is_available`, `image_url` and
`images` — an absent field is written as 0 / false / the empty list,
matching the create coercions — but each string-typed mutable field
(`title`, `description`, `property_type`, `location`, `county`, `estate`,
`landlord_name`, `furnishing_status`) that is absent from the request is
omitted from the PATCH and retains its previously stored value: for
strings the operation is a partial patch, not a full replace. -/
theorem update_full_replace_except_strings (body : ReqBody) (l : Listing)
    (iu : Option String) (imgs : List String) (now : Nat) :
    (body.price = none → (mkUpdateData body iu imgs now).price = 0) ∧
    (body.bedrooms = none → (mkUpdateData body iu imgs now).bedrooms = 0) ∧
    (body.bathrooms = none → (mkUpdateData body iu imgs now).bathrooms = 0) ∧
    (body.amenities = none → (mkUpdateData body iu imgs now).amenities = []) ∧
    (body.parking = none → (mkUpdateData body iu imgs now).parking = false) ∧
    (body.garden = none → (mkUpdateData body iu imgs now).garden = false) ∧
    (body.balcony = none → (mkUpdateData body iu imgs now).balcony = false) ∧
    (body.own_compound = none → (mkUpdateData body iu imgs now).own_compound = false) ∧
    (body.electricity = none → (mkUpdateData body iu imgs now).electricity = false) ∧
    (body.internet = none → (mkUpdateData body iu imgs now).internet = false) ∧
    (body.is_available = none → (mkUpdateData body iu imgs now).is_available = false) ∧
    ((applyUpdateData (mkUpdateData body iu imgs now) l).image_url = iu) ∧
    ((applyUpdateData (mkUpdateData body iu imgs now) l).images = imgs) ∧
    (body.title = none →
      (applyUpdateData (mkUpdateData body iu imgs now) l).title = l.title) ∧
    (body.description = none →
      (applyUpdateData (mkUpdateData body iu imgs now) l).description = l.description) ∧
    (body.property_type = none →
      (applyUpdateData (mkUpdateData body iu imgs now) l).property_type =
        l.property_type) ∧
    (body.location = none →
      (applyUpdateData (mkUpdateData body iu imgs now) l).location = l.location) ∧
    (body.county = none →
      (applyUpdateData (mkUpdateData body iu imgs now) l).county = l.county) ∧
    (body.estate = none →
      (applyUpdateData (mkUpdateData body iu imgs now) l).estate = l.estate) ∧
    (body.landlord_name = none →
      (applyUpdateData (mkUpdateData body iu imgs now) l).landlord_name =
        l.landlord_name) ∧
    (body.furnishing_status = none →
      (applyUpdateData (mkUpdateData body iu imgs now) l).furnishing_status =
        l.furnishing_status) ∧
    (∀ t, body.title = some t →
      (applyUpdateData (mkUpdateData body iu imgs now) l).title = t) := by
  refine ⟨?_, ?_, ?_, ?_, ?_, ?_, ?_, ?_, ?_, ?_, ?_, ?_, ?_, ?_, ?_, ?_, ?_, ?_,
    ?_, ?_, ?_, ?_⟩ <;>
    intros <;>
    simp_all [mkUpdateData, applyUpdateData, isTrueLit, parseIntOrZero]

/-- Witness for C7: an empty update body zeroes `parking` and keeps the
stored title. -/
theorem update_full_replace_except_strings_witness :
    (mkUpdateData {} (some "u/p.png") [] 9).parking = false ∧
    (applyUpdateData (mkUpdateData {} (some "u/p.png") [] 9) demoListing).title =
      demoListing.title :=
  ⟨(update_full_replace_except_strings {} demoListing (some "u/p.png") [] 9).2.2.2.2.1
      rfl,
   (update_full_replace_except_strings {} demoListing (some "u/p.png") []
      9).2.2.2.2.2.2.2.2.2.2.2.2.2.1 rfl⟩

/-- C2: evaluation of `PUT /listings/:id` at the failing input. A listing
stores the secondary image `u/a.png`; the request declares
`existing_images = []` and uploads nothing. The handler's effect trace
issues `storage.remove(["a.png"])` strictly before the row update, and
executing that trace with the final row write failing leaves the surviving
row still referencing the now-deleted blob key `a.png` — the state the
claim says is unreachable. -/
theorem update_removes_blob_before_row_write :
    updateEffects lastSegA 1 ⟨7, some "u/p.png", ["u/a.png"]⟩
        { existing_images := some [] } [] (fun s => s) 5 =
      [Effect.storageRemove [some "a.png"],
       Effect.rowUpdate 1
         (mkUpdateData { existing_images := some [] } (some "u/p.png") [] 5)] ∧
    referencesDeadBlob lastSegA
      (runEffects false
        (updateEffects lastSegA 1 ⟨7, some "u/p.png", ["u/a.png"]⟩
          { existing_images := some [] } [] (fun s => s) 5)
        ⟨["p.png", "a.png"], some "u/p.png", ["u/a.png"], false⟩) = true := by
  refine ⟨by decide, by decide⟩

/-- C5: evaluation at the failing input — `GET /listings/:id` with an id
matching no row. Variant A hits `if (error) throw error` first (the
`.single()` zero-row error, the code this repository itself handles as
`PGRST116` in the favorites check route) and responds 500, leaving its
`if (!listing) return 404` branch unreachable; variant B responds 404 as
the claim states. The Forbidden/ok gate behaves as claimed in variant A:
an anonymous requester is refused an unavailable row with 403 and the
owner receives it. -/
theorem get_missing_row_divergence :
    getListingA 42 none ⟨[], []⟩ = .serverError ∧
    getListingB 42 none ⟨[], []⟩ = .notFound ∧
    getListingA 1 none ⟨[demoUnavailable], []⟩ = .forbidden ∧
    getListingA 1 (some 7) ⟨[demoUnavailable], []⟩ = .ok demoUnavailable := by
  refine ⟨rfl, rfl, by decide, by decide⟩

end NyumbaHub
